import Mathlib

/-!
Shallow embedding of the weather-mcp-server repository (Python) for
verification of its specification.

Sources embedded:
- src/models/weather_models.py  (Location, WeatherCondition, DailyWeatherSummary,
  WeatherForecastData.get_daily_summaries, WeatherForecast)
- src/config/exceptions.py      (exception classes; all model validation in the
  code raises the built-in ValueError)
- src/config/settings.py        (EXPECTED_FORECAST_DAYS)
- src/services/weather_service.py (get_current_weather / get_forecast error
  handling and the inline daily aggregation)
- src/main.py                   (the three MCP tool handlers)

Conventions: Python floats are modelled as rationals (ℚ); calendar dates as
naturals (datetime.date is a linearly ordered type with decidable equality);
a Python constructor that can raise is modelled as a function returning
Except; Python `list(set(xs))`, whose iteration order is unspecified
(hash-dependent), is modelled by an explicit ordering function parameter
constrained only to produce a duplicate-free listing of the members.
-/

namespace Weather

/-- Calendar date, abstracting `datetime.date`: a linearly ordered type with
decidable equality (grouping key and sort key in the aggregation). -/
abbrev Date := Nat

/-- A timestamp: a date plus a time-of-day component (`datetime.datetime`).
Only the date component is ever inspected by the aggregation. -/
structure Timestamp where
  day : Date
  secondsOfDay : Nat
deriving DecidableEq

/-- The deduplication loop of `DailyWeatherSummary.conditions_summary`
(weather_models.py lines 82-85): `seen` is the `unique_conditions` list built
so far; each element not already in it is appended.  The function returns the
elements appended from here on, so `dedupFirstAux [] l` is the final
`unique_conditions` list. -/
def dedupFirstAux {α : Type} [DecidableEq α] : List α → List α → List α
  | _, [] => []
  | seen, c :: rest =>
    if c ∈ seen then dedupFirstAux seen rest
    else c :: dedupFirstAux (seen ++ [c]) rest

/-- Order-preserving first-occurrence deduplication (the loop above started
from the empty accumulator). -/
def dedupFirst {α : Type} [DecidableEq α] (l : List α) : List α :=
  dedupFirstAux [] l

/-- Index of the first occurrence of an element (Python `list.index`). -/
def firstIdx {α : Type} [DecidableEq α] : List α → α → Nat
  | [], _ => 0
  | c :: rest, a => if a = c then 0 else firstIdx rest a + 1

/-- `sep.join(l)` from Python. -/
def joinSep (sep : String) : List String → String
  | [] => ""
  | [s] => s
  | s :: rest => s ++ sep ++ joinSep sep rest

/-- `sorted(...)` applied to the distinct keys of an insertion-ordered dict:
the distinct elements of `l`, in ascending order.  Models
`sorted(daily_data.items())` over the grouping dict's keys. -/
def sortedDedup {α : Type} [DecidableEq α] [LinearOrder α] (l : List α) : List α :=
  List.insertionSort (· ≤ ·) (dedupFirst l)

/-- A loop that builds a list and aborts at the first raised exception
(the summary-construction loop in `get_daily_summaries`). -/
def mapExcept {α β ε : Type} (f : α → Except ε β) : List α → Except ε (List β)
  | [] => .ok []
  | a :: rest =>
    match f a with
    | .error e => .error e
    | .ok b =>
      match mapExcept f rest with
      | .error e => .error e
      | .ok bs => .ok (b :: bs)

/-- Python's builtin `max(xs)` on a non-empty list of numbers (raises on an
empty list; every use below is on a provably non-empty group, the junk value
0 is never reached). -/
def maxQ : List ℚ → ℚ
  | [] => 0
  | x :: rest => rest.foldl max x

/-- Python's builtin `min(xs)` on a non-empty list of numbers (see `maxQ`). -/
def minQ : List ℚ → ℚ
  | [] => 0
  | x :: rest => rest.foldl min x

/-- Python 3 `round()` to an integer: round half to even.  Written on the
numerator and denominator: `f = n / d` is `⌊q⌋` (the denominator is positive
and integer division is Euclidean), and the fractional part `q - f` compares
against 1/2 as `r2 = 2*(n - f*d)` against `d`; `r2 = d` is the tie, resolved
towards the even neighbour. -/
def pyRound (q : ℚ) : ℤ :=
  let n : ℤ := q.num
  let d : ℤ := (q.den : ℤ)
  let f : ℤ := n / d
  let r2 : ℤ := 2 * (n - f * d)
  if r2 < d then f
  else if d < r2 then f + 1
  else if f % 2 = 0 then f else f + 1

/-- Characters removed by Python `str.strip()` with no argument. -/
def isPySpace (c : Char) : Bool :=
  c = ' ' || c = '\t' || c = '\n' || c = '\r' || c = '\x0b' || c = '\x0c'

/-- `not s.strip()` from Python: true iff every character is whitespace
(so also for the empty string). -/
def pyStripIsEmpty (s : String) : Bool := s.toList.all isPySpace

/-- The Python exception class actually raised at a given raise site.
`config/exceptions.py` defines DataProcessingError (among others), but every
validation in `weather_models.py` raises the builtin ValueError. -/
inductive PyExcClass
  | valueError
  | runtimeError
  | dataProcessingError
deriving DecidableEq

/-- The raise sites of weather_models.py, each carrying the data interpolated
into its message.  All of them are `raise ValueError(...)`. -/
inductive ModelError
  | invalidLatitude (lat : ℚ)
  | invalidLongitude (lon : ℚ)
  | maxLessThanMin (maxT minT : ℚ) (d : Date)
  | emptyConditions (d : Date)
  | wrongSummaryCount (n : Nat)
  | emptyNarrative
deriving DecidableEq

/-- Exception class of each model-layer raise site: every one is
`raise ValueError(...)` in weather_models.py. -/
def ModelError.pyClass : ModelError → PyExcClass
  | _ => .valueError

/-- `Location` (weather_models.py lines 11-22), fields only. -/
structure Location where
  latitude : ℚ
  longitude : ℚ
deriving DecidableEq

/-- `Location.__post_init__`: construction validates the coordinate ranges
and raises ValueError outside them (weather_models.py lines 17-22). -/
def mkLocation (lat lon : ℚ) : Except ModelError Location :=
  if ¬ (-90 ≤ lat ∧ lat ≤ 90) then .error (.invalidLatitude lat)
  else if ¬ (-180 ≤ lon ∧ lon ≤ 180) then .error (.invalidLongitude lon)
  else .ok ⟨lat, lon⟩

/-- `WeatherCondition` (weather_models.py lines 25-38): one raw sample. -/
structure WeatherCondition where
  timestamp : Timestamp
  temperature : ℚ
  temperature_min : ℚ
  temperature_max : ℚ
  description : String
  humidity : Option ℚ := none
deriving DecidableEq

/-- The `date` property: the date component of the timestamp. -/
def WeatherCondition.date (c : WeatherCondition) : Date := c.timestamp.day

/-- `DailyWeatherSummary` (weather_models.py lines 41-47), fields only. -/
structure DailyWeatherSummary where
  date : Date
  max_temperature : ℚ
  min_temperature : ℚ
  weather_conditions : List String
deriving DecidableEq

/-- `DailyWeatherSummary.__post_init__` (weather_models.py lines 49-57):
raises ValueError when max < min, then when the condition list is empty. -/
def mkDailyWeatherSummary (d : Date) (maxT minT : ℚ) (conds : List String) :
    Except ModelError DailyWeatherSummary :=
  if maxT < minT then .error (.maxLessThanMin maxT minT d)
  else if conds = [] then .error (.emptyConditions d)
  else .ok ⟨d, maxT, minT, conds⟩

/-- `DailyWeatherSummary.conditions_summary` (weather_models.py lines 75-92):
first-occurrence dedup, then a grammatical join ("A", "A and B",
"A, B, and C").  `dedupFirst cs = []` holds exactly when `cs = []`, which is
the code's `if not self.weather_conditions: return "unknown"` branch. -/
def conditions_summary (cs : List String) : String :=
  match dedupFirst cs with
  | [] => "unknown"
  | [a] => a
  | [a, b] => a ++ " and " ++ b
  | a :: b :: c :: rest =>
      joinSep ", " ((a :: b :: c :: rest).dropLast) ++ ", and " ++
        (a :: b :: c :: rest).getLastD ""

/-- An ordering function standing for Python `list(set(xs))`: its output must
list the members of `xs` without duplicates, in an order the language leaves
unspecified (hash-dependent). -/
def IsSetListFun (σ : List String → List String) : Prop :=
  ∀ xs, (σ xs).Nodup ∧ ∀ s, s ∈ σ xs ↔ s ∈ xs

/-- `WeatherForecastData.get_daily_summaries` (weather_models.py 106-132):
group samples by calendar date (insertion-ordered dict), iterate the groups
in sorted date order, build one DailyWeatherSummary per group — max of the
per-sample maxima, min of the per-sample minima, `list(set(descriptions))`
(modelled by `σ`) — aborting at the first ValueError, then return the first
five summaries (`summaries[:5]`). -/
def getDailySummaries (σ : List String → List String) (xs : List WeatherCondition) :
    Except ModelError (List DailyWeatherSummary) :=
  match mapExcept (fun d =>
      let conditions := xs.filter (fun c => c.date = d)
      mkDailyWeatherSummary d
        (maxQ (conditions.map WeatherCondition.temperature_max))
        (minQ (conditions.map WeatherCondition.temperature_min))
        (σ (conditions.map WeatherCondition.description)))
    (sortedDedup (xs.map WeatherCondition.date)) with
  | .error e => .error e
  | .ok summaries => .ok (summaries.take 5)

/-- `Settings.EXPECTED_FORECAST_DAYS` (config/settings.py line 40). -/
def Settings.EXPECTED_FORECAST_DAYS : Nat := 5

/-- `WeatherForecast` (weather_models.py lines 135-142), fields only. -/
structure WeatherForecast where
  location : Location
  daily_summaries : List DailyWeatherSummary
  ai_narrative : String
  style : String
deriving DecidableEq

/-- `WeatherForecast.__post_init__` (weather_models.py lines 144-149): raises
ValueError unless there are exactly 5 daily summaries (literal 5 in the
code) and the narrative does not strip to the empty string. -/
def mkWeatherForecast (loc : Location) (summaries : List DailyWeatherSummary)
    (narrative style : String) : Except ModelError WeatherForecast :=
  if summaries.length ≠ 5 then .error (.wrongSummaryCount summaries.length)
  else if pyStripIsEmpty narrative then .error .emptyNarrative
  else .ok ⟨loc, summaries, narrative, style⟩

/-- Outcome of one upstream HTTP request as seen by the `try` body:
either parsed data, or `raise_for_status()` raised HTTPError with a status
code, or some other exception occurred (transport failure, missing key,
key-vault failure, ...). -/
inductive FetchOutcome (α : Type)
  | success (data : α)
  | httpFailure (status : Nat)
  | otherFailure

/-- The errors raised by WeatherService (weather_service.py lines 90-98 and
149-151), each carrying the data interpolated into its message. -/
inductive SvcError
  | locationNotFound (loc : String)
  | serviceUnavailable (status : Nat)
  | unableCurrent (loc : String)
  | unableForecast (loc : String)
deriving DecidableEq

/-- Exception class of each service-layer raise site: the 404 branch raises
the builtin ValueError, all other branches raise RuntimeError. -/
def SvcError.pyClass : SvcError → PyExcClass
  | .locationNotFound _ => .valueError
  | _ => .runtimeError

/-- `str(e)` for each service-layer error, from its f-string. -/
def SvcError.pyStr : SvcError → String
  | .locationNotFound loc => "Location '" ++ loc ++ "' not found"
  | .serviceUnavailable status => "Weather service unavailable: " ++ toString status
  | .unableCurrent loc => "Unable to get weather for " ++ loc
  | .unableForecast loc => "Unable to get forecast for " ++ loc

/-- The dict returned by `WeatherService.get_current_weather` on success
(weather_service.py lines 80-88). -/
structure CurrentData where
  location : String
  temp : ℤ
  feels_like : ℤ
  description : String
  humidity : ℚ
  wind_speed : ℤ
  wind_direction : ℚ
deriving DecidableEq

/-- Error handling of `WeatherService.get_current_weather` (weather_service.py
lines 61-98): on HTTPError with status 404 raise
ValueError("Location '{loc}' not found"); on HTTPError with any other status
raise RuntimeError("Weather service unavailable: {status}"); on any other
exception raise RuntimeError("Unable to get weather for {loc}").  A raise
inside the HTTPError handler is not caught by the sibling
`except Exception` clause. -/
def get_current_weather_svc (loc : String) (o : FetchOutcome CurrentData) :
    Except SvcError CurrentData :=
  match o with
  | .success d => .ok d
  | .httpFailure status =>
    if status = 404 then .error (.locationNotFound loc)
    else .error (.serviceUnavailable status)
  | .otherFailure => .error (.unableCurrent loc)

/-- One element of `data["list"]` in the forecast response, restricted to the
fields `WeatherService.get_forecast` reads: `dt_txt.split()[0]`,
`main.temp_max`, `main.temp_min`, `weather[0].description`, `main.humidity`,
`wind.speed` (weather_service.py lines 121-144). -/
structure ForecastItem where
  dt_txt_date : String
  temp_max : ℚ
  temp_min : ℚ
  description : String
  humidity : ℚ
  wind_speed : ℚ
deriving DecidableEq

/-- Junk item for `headD`; every use below is on a provably non-empty
group (`entries[0]` in the code). -/
def fDefault : ForecastItem := ⟨"", 0, 0, "", 0, 0⟩

/-- One element of the list returned by `WeatherService.get_forecast`
(weather_service.py lines 138-145). -/
structure DailyForecast where
  date : String
  temp_high : ℤ
  temp_low : ℤ
  description : String
  humidity : ℚ
  wind_speed : ℤ
deriving DecidableEq

/-- The aggregation loop of `WeatherService.get_forecast` (weather_service.py
lines 119-147): group items by the date part of `dt_txt` (insertion-ordered
dict), iterate groups in sorted date order, stop once
`Settings.EXPECTED_FORECAST_DAYS` (5) days were built, and for each group
emit max of highs, min of lows (both through Python `round`),
`", ".join(list(set(descriptions)))` (set order modelled by `σ`), and the
humidity and wind speed of the group's first entry. -/
def aggregateForecast (σ : List String → List String) (items : List ForecastItem) :
    List DailyForecast :=
  ((sortedDedup (items.map ForecastItem.dt_txt_date)).take
      Settings.EXPECTED_FORECAST_DAYS).map (fun d =>
    let entries := items.filter (fun it => it.dt_txt_date = d)
    { date := d
      temp_high := pyRound (maxQ (entries.map ForecastItem.temp_max))
      temp_low := pyRound (minQ (entries.map ForecastItem.temp_min))
      description := joinSep ", " (σ (entries.map ForecastItem.description))
      humidity := (entries.headD fDefault).humidity
      wind_speed := pyRound (entries.headD fDefault).wind_speed })

/-- `WeatherService.get_forecast` (weather_service.py lines 100-151): on
success aggregate; on ANY exception — HTTPError of any status (404
included), transport failure, parse failure — the single
`except Exception` clause raises RuntimeError("Unable to get forecast for
{loc}").  Unlike the current-weather path there is no 404 distinction. -/
def get_forecast_svc (σ : List String → List String) (loc : String)
    (o : FetchOutcome (List ForecastItem)) : Except SvcError (List DailyForecast) :=
  match o with
  | .success items => .ok (aggregateForecast σ items)
  | .httpFailure _ => .error (.unableForecast loc)
  | .otherFailure => .error (.unableForecast loc)

/-- Tool handler `get_current_weather` (main.py lines 28-43): format the
service result, or catch any exception and return a message embedding
`str(e)`. -/
def get_current_weather_tool (loc : String) (r : Except SvcError CurrentData) : String :=
  match r with
  | .ok w =>
      "Current weather in " ++ loc ++ ":\nTemperature: " ++ toString w.temp ++
        "°F\nCondition: " ++ w.description ++ "\nHumidity: " ++ toString w.humidity ++
        "%\nWind: " ++ toString w.wind_speed ++ " mph"
  | .error e => "Unable to get weather for " ++ loc ++ ": " ++ e.pyStr

/-- Tool handler `get_weather_forecast` (main.py lines 45-60). -/
def get_weather_forecast_tool (loc : String) (r : Except SvcError (List DailyForecast)) :
    String :=
  match r with
  | .ok days =>
      days.foldl (fun acc day =>
          acc ++ "\n" ++ day.date ++ ": " ++ toString day.temp_high ++ "°/" ++
            toString day.temp_low ++ "° - " ++ day.description)
        ("5-day forecast for " ++ loc ++ ":\n")
  | .error e => "Unable to get forecast for " ++ loc ++ ": " ++ e.pyStr

/-- Tool handler `get_weather_insights` (main.py lines 62-81): awaits the
current weather, then the forecast, then the AI narrative.
`AIService.generate_weather_insights` (ai_service.py lines 62-116) never
raises — its catch-all returns a fallback string — so the narrative is
modelled as an always-available String; any service error is caught and
rendered as a message embedding `str(e)`. -/
def get_weather_insights_tool (loc : String) (w : Except SvcError CurrentData)
    (f : Except SvcError (List DailyForecast)) (narrative : String) : String :=
  match w with
  | .error e => "Unable to generate insights for " ++ loc ++ ": " ++ e.pyStr
  | .ok _ =>
    match f with
    | .error e => "Unable to generate insights for " ++ loc ++ ": " ++ e.pyStr
    | .ok _ => "Weather insights for " ++ loc ++ ":\n" ++ narrative

/-! ### Lemmas about the deduplication and sorting helpers -/

theorem mem_dedupFirstAux {α : Type} [DecidableEq α] :
    ∀ (l seen : List α) (a : α), a ∈ dedupFirstAux seen l ↔ a ∈ l ∧ a ∉ seen := by
  intro l
  induction l with
  | nil => simp [dedupFirstAux]
  | cons c rest ih =>
    intro seen a
    by_cases hc : c ∈ seen
    · rw [dedupFirstAux, if_pos hc, ih]
      constructor
      · rintro ⟨h1, h2⟩
        exact ⟨List.mem_cons_of_mem _ h1, h2⟩
      · rintro ⟨h1, h2⟩
        rcases List.mem_cons.mp h1 with h | h
        · exact absurd (h ▸ hc) h2
        · exact ⟨h, h2⟩
    · rw [dedupFirstAux, if_neg hc]
      by_cases hac : a = c
      · subst hac
        simp [hc]
      · rw [List.mem_cons, ih]
        simp only [List.mem_append, List.mem_singleton]
        constructor
        · rintro (h | ⟨h1, h2⟩)
          · exact absurd h hac
          · exact ⟨List.mem_cons_of_mem _ h1, fun hs => h2 (Or.inl hs)⟩
        · rintro ⟨h1, h2⟩
          rcases List.mem_cons.mp h1 with h | h
          · exact absurd h hac
          · exact Or.inr ⟨h, fun hs => hs.elim h2 hac⟩

theorem mem_dedupFirst {α : Type} [DecidableEq α] (l : List α) (a : α) :
    a ∈ dedupFirst l ↔ a ∈ l := by
  rw [dedupFirst, mem_dedupFirstAux]
  simp

theorem nodup_dedupFirstAux {α : Type} [DecidableEq α] :
    ∀ (l seen : List α), (dedupFirstAux seen l).Nodup := by
  intro l
  induction l with
  | nil => simp [dedupFirstAux]
  | cons c rest ih =>
    intro seen
    by_cases hc : c ∈ seen
    · rw [dedupFirstAux, if_pos hc]
      exact ih seen
    · rw [dedupFirstAux, if_neg hc]
      refine List.Nodup.cons ?_ (ih _)
      intro hmem
      have := (mem_dedupFirstAux rest (seen ++ [c]) c).mp hmem
      simp at this

theorem nodup_dedupFirst {α : Type} [DecidableEq α] (l : List α) :
    (dedupFirst l).Nodup :=
  nodup_dedupFirstAux l []

theorem dedupFirst_eq_nil_iff {α : Type} [DecidableEq α] (l : List α) :
    dedupFirst l = [] ↔ l = [] := by
  cases l with
  | nil => simp [dedupFirst, dedupFirstAux]
  | cons c rest =>
    rw [dedupFirst, dedupFirstAux]
    simp

theorem firstIdx_cons_self {α : Type} [DecidableEq α] (c : α) (l : List α) :
    firstIdx (c :: l) c = 0 := by
  simp [firstIdx]

theorem firstIdx_cons_ne {α : Type} [DecidableEq α] {a c : α} (h : a ≠ c) (l : List α) :
    firstIdx (c :: l) a = firstIdx l a + 1 := by
  simp [firstIdx, h]

theorem dedupFirstAux_pairwise_firstIdx {α : Type} [DecidableEq α] :
    ∀ (l seen : List α),
      (dedupFirstAux seen l).Pairwise (fun a b => firstIdx l a < firstIdx l b) := by
  intro l
  induction l with
  | nil => simp [dedupFirstAux]
  | cons c rest ih =>
    intro seen
    by_cases hc : c ∈ seen
    · rw [dedupFirstAux, if_pos hc]
      refine (ih seen).imp_of_mem ?_
      intro a b ha hb hlt
      have ha' := (mem_dedupFirstAux rest seen a).mp ha
      have hb' := (mem_dedupFirstAux rest seen b).mp hb
      have hane : a ≠ c := fun h => ha'.2 (h ▸ hc)
      have hbne : b ≠ c := fun h => hb'.2 (h ▸ hc)
      rw [firstIdx_cons_ne hane, firstIdx_cons_ne hbne]
      omega
    · rw [dedupFirstAux, if_neg hc]
      refine List.Pairwise.cons ?_ ?_
      · intro b hb
        have hb' := (mem_dedupFirstAux rest (seen ++ [c]) b).mp hb
        have hbne : b ≠ c := by
          intro h
          exact hb'.2 (by simp [h])
        rw [firstIdx_cons_self, firstIdx_cons_ne hbne]
        omega
      · refine (ih (seen ++ [c])).imp_of_mem ?_
        intro a b ha hb hlt
        have ha' := (mem_dedupFirstAux rest (seen ++ [c]) a).mp ha
        have hb' := (mem_dedupFirstAux rest (seen ++ [c]) b).mp hb
        have hane : a ≠ c := fun h => ha'.2 (by simp [h])
        have hbne : b ≠ c := fun h => hb'.2 (by simp [h])
        rw [firstIdx_cons_ne hane, firstIdx_cons_ne hbne]
        omega

theorem dedupFirst_pairwise_firstIdx {α : Type} [DecidableEq α] (l : List α) :
    (dedupFirst l).Pairwise (fun a b => firstIdx l a < firstIdx l b) :=
  dedupFirstAux_pairwise_firstIdx l []

theorem sortedDedup_perm {α : Type} [DecidableEq α] [LinearOrder α] (l : List α) :
    List.Perm (sortedDedup l) (dedupFirst l) :=
  List.perm_insertionSort _ _

theorem mem_sortedDedup {α : Type} [DecidableEq α] [LinearOrder α] (l : List α) (a : α) :
    a ∈ sortedDedup l ↔ a ∈ l := by
  rw [(sortedDedup_perm l).mem_iff, mem_dedupFirst]

theorem sortedDedup_nodup {α : Type} [DecidableEq α] [LinearOrder α] (l : List α) :
    (sortedDedup l).Nodup :=
  (sortedDedup_perm l).nodup_iff.mpr (nodup_dedupFirst l)

theorem sortedDedup_length {α : Type} [DecidableEq α] [LinearOrder α] (l : List α) :
    (sortedDedup l).length = (dedupFirst l).length :=
  (sortedDedup_perm l).length_eq

theorem sortedDedup_sorted_le {α : Type} [DecidableEq α] [LinearOrder α] (l : List α) :
    (sortedDedup l).Sorted (· ≤ ·) :=
  List.sorted_insertionSort _ _

theorem sortedDedup_pairwise_lt {α : Type} [DecidableEq α] [LinearOrder α] (l : List α) :
    (sortedDedup l).Pairwise (· < ·) :=
  ((sortedDedup_sorted_le l).and (sortedDedup_nodup l)).imp
    (fun h => lt_of_le_of_ne h.1 h.2)

/-! ### Lemmas about mapExcept and the summary constructor -/

theorem mapExcept_ok_length {α β ε : Type} {f : α → Except ε β} :
    ∀ {l : List α} {ys : List β}, mapExcept f l = .ok ys → ys.length = l.length := by
  intro l
  induction l with
  | nil => intro ys h; simp only [mapExcept, Except.ok.injEq] at h; subst h; rfl
  | cons a rest ih =>
    intro ys h
    cases hfa : f a with
    | error e => simp [mapExcept, hfa] at h
    | ok b =>
      cases hrest : mapExcept f rest with
      | error e => simp [mapExcept, hfa, hrest] at h
      | ok bs =>
        simp only [mapExcept, hfa, hrest, Except.ok.injEq] at h
        subst h
        simp [ih hrest]

theorem mapExcept_ok_forall {α β ε : Type} {f : α → Except ε β} :
    ∀ {l : List α} {ys : List β}, mapExcept f l = .ok ys →
      ∀ b ∈ ys, ∃ a ∈ l, f a = .ok b := by
  intro l
  induction l with
  | nil =>
    intro ys h
    simp only [mapExcept, Except.ok.injEq] at h
    subst h; simp
  | cons a rest ih =>
    intro ys h
    cases hfa : f a with
    | error e => simp [mapExcept, hfa] at h
    | ok b =>
      cases hrest : mapExcept f rest with
      | error e => simp [mapExcept, hfa, hrest] at h
      | ok bs =>
        simp only [mapExcept, hfa, hrest, Except.ok.injEq] at h
        subst h
        intro x hx
        rcases List.mem_cons.mp hx with rfl | hx'
        · exact ⟨a, List.mem_cons_self a rest, hfa⟩
        · obtain ⟨a', ha', hfa'⟩ := ih hrest x hx'
          exact ⟨a', List.mem_cons_of_mem _ ha', hfa'⟩

theorem mapExcept_ok_map {α β ε : Type} {f : α → Except ε β} (g : β → α)
    (hg : ∀ a b, f a = .ok b → g b = a) :
    ∀ {l : List α} {ys : List β}, mapExcept f l = .ok ys → ys.map g = l := by
  intro l
  induction l with
  | nil =>
    intro ys h
    simp only [mapExcept, Except.ok.injEq] at h
    subst h; rfl
  | cons a rest ih =>
    intro ys h
    cases hfa : f a with
    | error e => simp [mapExcept, hfa] at h
    | ok b =>
      cases hrest : mapExcept f rest with
      | error e => simp [mapExcept, hfa, hrest] at h
      | ok bs =>
        simp only [mapExcept, hfa, hrest, Except.ok.injEq] at h
        subst h
        simp [hg a b hfa, ih hrest]

theorem mkDailyWeatherSummary_ok {d : Date} {maxT minT : ℚ} {conds : List String}
    {s : DailyWeatherSummary} (h : mkDailyWeatherSummary d maxT minT conds = .ok s) :
    s.date = d ∧ s.max_temperature = maxT ∧ s.min_temperature = minT ∧
      s.weather_conditions = conds ∧ minT ≤ maxT ∧ conds ≠ [] := by
  unfold mkDailyWeatherSummary at h
  split_ifs at h with h1 h2
  rw [Except.ok.injEq] at h
  cases h
  exact ⟨rfl, rfl, rfl, rfl, not_lt.mp h1, h2⟩

theorem mkDailyWeatherSummary_error_iff (d : Date) (maxT minT : ℚ) (conds : List String) :
    (∃ e, mkDailyWeatherSummary d maxT minT conds = .error e) ↔
      (conds = [] ∨ maxT < minT) := by
  unfold mkDailyWeatherSummary
  split_ifs with h1 h2
  · simp [h1]
  · simp [h1, h2]
  · simp [h1, h2]

/-- Unpacks a successful `getDailySummaries` call: the produced dates are the
first five sorted distinct input dates, and each summary was built by the
validated constructor from its own date group. -/
theorem getDailySummaries_ok_spec {σ : List String → List String}
    {xs : List WeatherCondition} {ys : List DailyWeatherSummary}
    (h : getDailySummaries σ xs = .ok ys) :
    ys.map DailyWeatherSummary.date = (sortedDedup (xs.map WeatherCondition.date)).take 5 ∧
    ∀ s ∈ ys,
      s.min_temperature ≤ s.max_temperature ∧
      s.weather_conditions =
        σ ((xs.filter (fun c => c.date = s.date)).map WeatherCondition.description) ∧
      s.max_temperature =
        maxQ ((xs.filter (fun c => c.date = s.date)).map WeatherCondition.temperature_max) ∧
      s.min_temperature =
        minQ ((xs.filter (fun c => c.date = s.date)).map WeatherCondition.temperature_min) := by
  unfold getDailySummaries at h
  cases hm : mapExcept (fun d =>
      let conditions := xs.filter (fun c => c.date = d)
      mkDailyWeatherSummary d
        (maxQ (conditions.map WeatherCondition.temperature_max))
        (minQ (conditions.map WeatherCondition.temperature_min))
        (σ (conditions.map WeatherCondition.description)))
    (sortedDedup (xs.map WeatherCondition.date)) with
  | error e => rw [hm] at h; simp at h
  | ok zs =>
    rw [hm] at h
    simp only [Except.ok.injEq] at h
    subst h
    have hmap : zs.map DailyWeatherSummary.date =
        sortedDedup (xs.map WeatherCondition.date) := by
      refine mapExcept_ok_map DailyWeatherSummary.date ?_ hm
      intro d s hds
      exact (mkDailyWeatherSummary_ok hds).1
    constructor
    · rw [List.map_take, hmap]
    · intro s hs
      have hs' : s ∈ zs := List.Sublist.subset (List.take_sublist _ _) hs
      obtain ⟨d, _, hds⟩ := mapExcept_ok_forall hm s hs'
      obtain ⟨hd, hmax, hmin, hconds, hle, _⟩ := mkDailyWeatherSummary_ok hds
      subst hd
      exact ⟨hmax ▸ hmin ▸ hle, hconds, hmax, hmin⟩

/-! ### Concrete set-listing functions and example inputs -/

/-- First-occurrence order is one possible `list(set(...))` iteration order. -/
theorem isSetListFun_dedupFirst : IsSetListFun dedupFirst :=
  fun xs => ⟨nodup_dedupFirst xs, fun s => mem_dedupFirst xs s⟩

/-- Reversed first-occurrence order: another possible `list(set(...))`
iteration order. -/
def setListRev (l : List String) : List String := (dedupFirst l).reverse

theorem isSetListFun_setListRev : IsSetListFun setListRev := by
  intro xs
  constructor
  · exact List.nodup_reverse.mpr (nodup_dedupFirst xs)
  · intro s
    rw [setListRev, List.mem_reverse, mem_dedupFirst]

def c1ex : List WeatherCondition :=
  [⟨⟨1, 0⟩, 15, 10, 20, "rain", none⟩, ⟨⟨0, 0⟩, 5, 0, 10, "clear", none⟩,
   ⟨⟨1, 10800⟩, 16, 12, 22, "clear", none⟩]

def c1out : List DailyWeatherSummary :=
  [⟨0, 10, 0, ["clear"]⟩, ⟨1, 22, 10, ["rain", "clear"]⟩]

/-! ### Claims about the model-layer daily aggregation -/

/-- Claim C1: for a non-empty sample list, whenever `get_daily_summaries`
returns, it returns at most 5 summaries, their dates strictly increasing and
pairwise distinct, every summary's date is an input date, an input date is
missing from the output only when the output is already at the horizon
length 5, and every summary satisfies max_temperature ≥ min_temperature. -/
theorem c1_daily_aggregation_shape (σ : List String → List String)
    (xs : List WeatherCondition) (ys : List DailyWeatherSummary)
    (_hne : xs ≠ []) (h : getDailySummaries σ xs = .ok ys) :
    ys.length ≤ 5 ∧
    (ys.map DailyWeatherSummary.date).Pairwise (· < ·) ∧
    (ys.map DailyWeatherSummary.date).Nodup ∧
    (∀ s ∈ ys, s.date ∈ xs.map WeatherCondition.date) ∧
    (∀ d ∈ xs.map WeatherCondition.date,
      d ∉ ys.map DailyWeatherSummary.date → ys.length = 5) ∧
    (∀ s ∈ ys, s.min_temperature ≤ s.max_temperature) := by
  obtain ⟨hdates, hfields⟩ := getDailySummaries_ok_spec h
  have hlen : ys.length = min 5 (sortedDedup (xs.map WeatherCondition.date)).length := by
    have hl := congrArg List.length hdates
    rwa [List.length_map, List.length_take] at hl
  have hpw : (ys.map DailyWeatherSummary.date).Pairwise (· < ·) := by
    rw [hdates]
    exact (sortedDedup_pairwise_lt _).sublist (List.take_sublist _ _)
  refine ⟨by omega, hpw, hpw.imp ne_of_lt, ?_, ?_, fun s hs => (hfields s hs).1⟩
  · intro s hs
    have hmem : s.date ∈ ys.map DailyWeatherSummary.date := List.mem_map_of_mem _ hs
    rw [hdates] at hmem
    have := List.Sublist.subset (List.take_sublist _ _) hmem
    rwa [mem_sortedDedup] at this
  · intro d hd hnot
    by_contra hlen5
    have htake : (sortedDedup (xs.map WeatherCondition.date)).take 5 =
        sortedDedup (xs.map WeatherCondition.date) :=
      List.take_of_length_le (by omega)
    rw [hdates, htake] at hnot
    exact hnot ((mem_sortedDedup _ _).mpr hd)

theorem c1_daily_aggregation_shape_witness :
    c1ex ≠ [] ∧
    getDailySummaries dedupFirst c1ex = .ok c1out ∧
    (c1out.length ≤ 5 ∧
     (c1out.map DailyWeatherSummary.date).Pairwise (· < ·) ∧
     (c1out.map DailyWeatherSummary.date).Nodup ∧
     (∀ s ∈ c1out, s.date ∈ c1ex.map WeatherCondition.date) ∧
     (∀ d ∈ c1ex.map WeatherCondition.date,
       d ∉ c1out.map DailyWeatherSummary.date → c1out.length = 5) ∧
     (∀ s ∈ c1out, s.min_temperature ≤ s.max_temperature)) :=
  ⟨by decide, by rfl,
    c1_daily_aggregation_shape dedupFirst c1ex c1out (by decide) (by rfl)⟩

def c3ex : List WeatherCondition :=
  [⟨⟨0, 0⟩, 1, 0, 2, "a", none⟩, ⟨⟨1, 0⟩, 1, 0, 2, "b", none⟩,
   ⟨⟨2, 0⟩, 1, 0, 2, "c", none⟩, ⟨⟨3, 0⟩, 1, 0, 2, "d", none⟩,
   ⟨⟨4, 0⟩, 1, 0, 2, "e", none⟩, ⟨⟨5, 0⟩, 1, 0, 2, "f", none⟩,
   ⟨⟨6, 0⟩, 1, 0, 2, "g", none⟩]

def c3out : List DailyWeatherSummary :=
  [⟨0, 2, 0, ["a"]⟩, ⟨1, 2, 0, ["b"]⟩, ⟨2, 2, 0, ["c"]⟩, ⟨3, 2, 0, ["d"]⟩,
   ⟨4, 2, 0, ["e"]⟩]

/-- Claim C3: when the input spans more than 5 distinct dates, a successful
aggregation returns exactly 5 summaries in strictly ascending date order,
all dates drawn from the input, and every input date left out of the output
is strictly later than every date kept: the truncation keeps the earliest
dates. -/
theorem c3_truncation_earliest_dates (σ : List String → List String)
    (xs : List WeatherCondition) (ys : List DailyWeatherSummary)
    (h : getDailySummaries σ xs = .ok ys)
    (hmany : 5 < (dedupFirst (xs.map WeatherCondition.date)).length) :
    ys.length = 5 ∧
    (ys.map DailyWeatherSummary.date).Pairwise (· < ·) ∧
    (∀ s ∈ ys, s.date ∈ xs.map WeatherCondition.date) ∧
    (∀ d ∈ xs.map WeatherCondition.date,
      d ∉ ys.map DailyWeatherSummary.date → ∀ s ∈ ys, s.date < d) := by
  obtain ⟨hdates, hfields⟩ := getDailySummaries_ok_spec h
  have hLlen : 5 < (sortedDedup (xs.map WeatherCondition.date)).length := by
    rw [sortedDedup_length]
    exact hmany
  have hlen : ys.length = min 5 (sortedDedup (xs.map WeatherCondition.date)).length := by
    have hl := congrArg List.length hdates
    rwa [List.length_map, List.length_take] at hl
  have hpw : (ys.map DailyWeatherSummary.date).Pairwise (· < ·) := by
    rw [hdates]
    exact (sortedDedup_pairwise_lt _).sublist (List.take_sublist _ _)
  refine ⟨by omega, hpw, ?_, ?_⟩
  · intro s hs
    have hmem : s.date ∈ ys.map DailyWeatherSummary.date := List.mem_map_of_mem _ hs
    rw [hdates] at hmem
    have := List.Sublist.subset (List.take_sublist _ _) hmem
    rwa [mem_sortedDedup] at this
  · intro d hd hnot s hs
    have hdL : d ∈ sortedDedup (xs.map WeatherCondition.date) :=
      (mem_sortedDedup _ _).mpr hd
    have hpwL := sortedDedup_pairwise_lt (xs.map WeatherCondition.date)
    rw [← List.take_append_drop 5 (sortedDedup (xs.map WeatherCondition.date))] at hpwL
    have hcross := (List.pairwise_append.mp hpwL).2.2
    have hdDrop : d ∈ (sortedDedup (xs.map WeatherCondition.date)).drop 5 := by
      rcases List.mem_append.mp
          (by rw [List.take_append_drop 5 (sortedDedup (xs.map WeatherCondition.date))]
              exact hdL) with h1 | h1
      · exact absurd (hdates ▸ h1) hnot
      · exact h1
    have hsdate : s.date ∈ (sortedDedup (xs.map WeatherCondition.date)).take 5 := by
      have : s.date ∈ ys.map DailyWeatherSummary.date := List.mem_map_of_mem _ hs
      rwa [hdates] at this
    exact hcross _ hsdate _ hdDrop

theorem c3_truncation_earliest_dates_witness :
    getDailySummaries dedupFirst c3ex = .ok c3out ∧
    5 < (dedupFirst (c3ex.map WeatherCondition.date)).length ∧
    (c3out.length = 5 ∧
     (c3out.map DailyWeatherSummary.date).Pairwise (· < ·) ∧
     (∀ s ∈ c3out, s.date ∈ c3ex.map WeatherCondition.date) ∧
     (∀ d ∈ c3ex.map WeatherCondition.date,
       d ∉ c3out.map DailyWeatherSummary.date → ∀ s ∈ c3out, s.date < d)) :=
  ⟨by rfl, by decide,
    c3_truncation_earliest_dates dedupFirst c3ex c3out (by rfl) (by decide)⟩

def c2in : List WeatherCondition :=
  [⟨⟨0, 0⟩, 12, 10, 20, "rain", none⟩, ⟨⟨0, 10800⟩, 13, 11, 19, "rain", none⟩,
   ⟨⟨0, 21600⟩, 14, 12, 18, "clear", none⟩]

/-- Claim C2, counterexample: `get_daily_summaries` builds the condition list
with `list(set(descriptions))` (line 122), whose order is unspecified.  Under
the legal set-iteration order `setListRev`, the day with conditions
["rain", "rain", "clear"] produces the condition list ["clear", "rain"] and
the consolidated phrase "clear and rain", not the first-appearance order
["rain", "clear"] / "rain and clear" that the claim asserts. -/
theorem c2_set_order_counterexample :
    IsSetListFun setListRev ∧
    getDailySummaries setListRev c2in = .ok [⟨0, 20, 10, ["clear", "rain"]⟩] ∧
    conditions_summary ["clear", "rain"] = "clear and rain" ∧
    "clear and rain" ≠ "rain and clear" ∧
    (["clear", "rain"] : List String) ≠ ["rain", "clear"] :=
  ⟨isSetListFun_setListRev, by rfl, by rfl, by decide, by decide⟩

/-- Claim C2, amended: for every valid set-iteration order, each produced
summary's condition list holds exactly the distinct condition descriptions
of that day's samples — no duplicates, nothing added, nothing dropped — but
in an unspecified order, not necessarily first-appearance order. -/
theorem c2_amended_distinct_conditions (σ : List String → List String)
    (hσ : IsSetListFun σ) (xs : List WeatherCondition)
    (ys : List DailyWeatherSummary) (h : getDailySummaries σ xs = .ok ys) :
    ∀ s ∈ ys, s.weather_conditions.Nodup ∧
      ∀ c, c ∈ s.weather_conditions ↔
        c ∈ (xs.filter (fun w => w.date = s.date)).map WeatherCondition.description := by
  intro s hs
  obtain ⟨-, hfields⟩ := getDailySummaries_ok_spec h
  obtain ⟨-, hconds, -, -⟩ := hfields s hs
  rw [hconds]
  exact ⟨(hσ _).1, fun c => (hσ _).2 c⟩

theorem c2_amended_distinct_conditions_witness :
    getDailySummaries dedupFirst c2in = .ok [⟨0, 20, 10, ["rain", "clear"]⟩] ∧
    ∀ s ∈ [(⟨0, 20, 10, ["rain", "clear"]⟩ : DailyWeatherSummary)],
      s.weather_conditions.Nodup ∧
      ∀ c, c ∈ s.weather_conditions ↔
        c ∈ (c2in.filter (fun w => w.date = s.date)).map WeatherCondition.description :=
  ⟨by rfl,
    c2_amended_distinct_conditions dedupFirst isSetListFun_dedupFirst c2in _ (by rfl)⟩

/-- Claim C4: `conditions_summary` deduplicates the condition strings keeping
the first occurrence of each (the kept list is duplicate-free, has exactly
the members of the input, and is ordered by index of first appearance), and
joins the result grammatically: one distinct condition is returned verbatim,
two as "A and B", three or more as "A, ..., and Z". -/
theorem c4_conditions_summary_grammar (cs : List String) :
    (dedupFirst cs).Nodup ∧
    (∀ c, c ∈ dedupFirst cs ↔ c ∈ cs) ∧
    (dedupFirst cs).Pairwise (fun a b => firstIdx cs a < firstIdx cs b) ∧
    (∀ a, dedupFirst cs = [a] → conditions_summary cs = a) ∧
    (∀ a b, dedupFirst cs = [a, b] → conditions_summary cs = a ++ " and " ++ b) ∧
    (∀ a b c rest, dedupFirst cs = a :: b :: c :: rest →
      conditions_summary cs =
        joinSep ", " ((a :: b :: c :: rest).dropLast) ++ ", and " ++
          (a :: b :: c :: rest).getLastD "") := by
  refine ⟨nodup_dedupFirst cs, fun c => mem_dedupFirst cs c,
    dedupFirst_pairwise_firstIdx cs, ?_, ?_, ?_⟩
  · intro a ha
    rw [conditions_summary, ha]
  · intro a b hab
    rw [conditions_summary, hab]
  · intro a b c rest habc
    rw [conditions_summary, habc]

theorem c4_conditions_summary_grammar_witness :
    dedupFirst ["rain", "rain", "clear"] = ["rain", "clear"] ∧
    conditions_summary ["rain", "rain", "clear"] = "rain and clear" ∧
    conditions_summary ["rain", "clear", "cloudy"] = "rain, clear, and cloudy" ∧
    conditions_summary ["overcast"] = "overcast" :=
  ⟨by rfl,
    (c4_conditions_summary_grammar ["rain", "rain", "clear"]).2.2.2.2.1
      "rain" "clear" (by rfl),
    (c4_conditions_summary_grammar ["rain", "clear", "cloudy"]).2.2.2.2.2
      "rain" "clear" "cloudy" [] (by rfl),
    (c4_conditions_summary_grammar ["overcast"]).2.2.2.1 "overcast" (by rfl)⟩

/-! ### Claims about constructor validation -/

/-- Claim C5, counterexample: a DailyWeatherSummary constructed with
max_temperature 0 < min_temperature 1 fails, but the raised exception is the
builtin ValueError (weather_models.py line 52), not the DataProcessingError
class that config/exceptions.py defines and nothing ever raises. -/
theorem c5_valueerror_counterexample :
    mkDailyWeatherSummary 0 0 1 ["overcast"] = .error (.maxLessThanMin 0 1 0) ∧
    ModelError.pyClass (.maxLessThanMin 0 1 0) = .valueError ∧
    PyExcClass.valueError ≠ PyExcClass.dataProcessingError ∧
    mkDailyWeatherSummary 0 20 10 [] = .error (.emptyConditions 0) ∧
    ModelError.pyClass (.emptyConditions 0) = .valueError :=
  ⟨by rfl, rfl, by decide, by rfl, rfl⟩

/-- Claim C5, amended: constructing a DailyWeatherSummary fails exactly when
the condition list is empty or max_temperature < min_temperature, and the
failure propagates as a raised ValueError (not silently repaired, but also
not as the never-raised DataProcessingError); a date carrying a single
sample still aggregates into a valid summary whose max/min are that
sample's own bounds. -/
theorem c5_amended_summary_validation (d : Date) (maxT minT : ℚ)
    (conds : List String) (σ : List String → List String) (c : WeatherCondition)
    (hσ : IsSetListFun σ) (hc : c.temperature_min ≤ c.temperature_max) :
    ((∃ e, mkDailyWeatherSummary d maxT minT conds = .error e) ↔
      (conds = [] ∨ maxT < minT)) ∧
    (∀ e, mkDailyWeatherSummary d maxT minT conds = .error e →
      e.pyClass = .valueError) ∧
    getDailySummaries σ [c] =
      .ok [⟨c.date, c.temperature_max, c.temperature_min, σ [c.description]⟩] := by
  refine ⟨mkDailyWeatherSummary_error_iff d maxT minT conds, ?_, ?_⟩
  · intro e _
    cases e <;> rfl
  · have hne : σ [c.description] ≠ [] := by
      intro h0
      have hmem := ((hσ [c.description]).2 c.description).mpr (by simp)
      rw [h0] at hmem
      simp at hmem
    have hmk : mkDailyWeatherSummary c.date
        (maxQ [c.temperature_max]) (minQ [c.temperature_min]) (σ [c.description]) =
        .ok ⟨c.date, c.temperature_max, c.temperature_min, σ [c.description]⟩ := by
      unfold mkDailyWeatherSummary
      have hmaxr : maxQ [c.temperature_max] = c.temperature_max := rfl
      have hminr : minQ [c.temperature_min] = c.temperature_min := rfl
      rw [hmaxr, hminr, if_neg (not_lt.mpr hc), if_neg hne]
    unfold getDailySummaries
    have hsd : sortedDedup (List.map WeatherCondition.date [c]) = [c.date] := rfl
    rw [hsd]
    have hfil : List.filter (fun w => decide (w.date = c.date)) [c] = [c] := by
      simp
    simp only [mapExcept, hfil, List.map_cons, List.map_nil, hmk]
    rfl

theorem c5_amended_summary_validation_witness :
    IsSetListFun dedupFirst ∧
    ((10 : ℚ) ≤ 20) ∧
    (((∃ e, mkDailyWeatherSummary 3 0 1 ["x"] = .error e) ↔
       ((["x"] : List String) = [] ∨ (0 : ℚ) < 1)) ∧
     (∀ e, mkDailyWeatherSummary 3 0 1 ["x"] = .error e →
       e.pyClass = .valueError) ∧
     getDailySummaries dedupFirst [⟨⟨7, 0⟩, 15, 10, 20, "clear", none⟩] =
       .ok [⟨(⟨⟨7, 0⟩, 15, 10, 20, "clear", none⟩ : WeatherCondition).date,
             (⟨⟨7, 0⟩, 15, 10, 20, "clear", none⟩ : WeatherCondition).temperature_max,
             (⟨⟨7, 0⟩, 15, 10, 20, "clear", none⟩ : WeatherCondition).temperature_min,
             dedupFirst [(⟨⟨7, 0⟩, 15, 10, 20, "clear", none⟩ : WeatherCondition).description]⟩]) :=
  ⟨isSetListFun_dedupFirst, by decide,
    c5_amended_summary_validation 3 0 1 ["x"] dedupFirst
      ⟨⟨7, 0⟩, 15, 10, 20, "clear", none⟩ isSetListFun_dedupFirst (by decide)⟩

def c6loc : Location := ⟨0, 0⟩

def c6summary : DailyWeatherSummary := ⟨0, 20, 10, ["clear"]⟩

/-- Claim C6: constructing a WeatherForecast succeeds exactly when the
daily-summary list has length 5 — the literal the code checks, which equals
the configured horizon Settings.EXPECTED_FORECAST_DAYS = 5 — and the
narrative contains at least one non-whitespace character; in particular 4 or
6 summaries fail and exactly 5 succeed. -/
theorem c6_forecast_length_and_narrative (loc : Location)
    (summaries : List DailyWeatherSummary) (narrative style : String) :
    ((∃ f, mkWeatherForecast loc summaries narrative style = .ok f) ↔
      (summaries.length = 5 ∧ ∃ ch ∈ narrative.toList, isPySpace ch = false)) ∧
    Settings.EXPECTED_FORECAST_DAYS = 5 ∧
    (∃ f, mkWeatherForecast c6loc (List.replicate 5 c6summary)
      "Mild week ahead" "casual" = .ok f) ∧
    (∀ f, mkWeatherForecast c6loc (List.replicate 4 c6summary)
      "Mild week ahead" "casual" ≠ .ok f) ∧
    (∀ f, mkWeatherForecast c6loc (List.replicate 6 c6summary)
      "Mild week ahead" "casual" ≠ .ok f) := by
  refine ⟨?_, rfl, ⟨⟨c6loc, List.replicate 5 c6summary, "Mild week ahead", "casual"⟩, rfl⟩,
    fun f h => Except.noConfusion h, fun f h => Except.noConfusion h⟩
  unfold mkWeatherForecast
  split_ifs with h1 h2
  · constructor
    · rintro ⟨f, hf⟩
      exact absurd hf (by simp)
    · rintro ⟨hlen, -⟩
      exact absurd hlen h1
  · constructor
    · rintro ⟨f, hf⟩
      exact absurd hf (by simp)
    · rintro ⟨-, ch, hch, hsp⟩
      rw [pyStripIsEmpty, List.all_eq_true] at h2
      rw [h2 ch hch] at hsp
      cases hsp
  · constructor
    · rintro -
      refine ⟨not_not.mp h1, ?_⟩
      rw [pyStripIsEmpty] at h2
      have h2' : narrative.toList.all isPySpace = false := Bool.eq_false_iff.mpr h2
      obtain ⟨ch, hch, hsp⟩ := List.all_eq_false.mp h2'
      exact ⟨ch, hch, Bool.eq_false_iff.mpr hsp⟩
    · rintro -
      exact ⟨⟨loc, summaries, narrative, style⟩, rfl⟩

/-- Claim C7: constructing a Location fails exactly when the latitude is
outside [-90, 90] or the longitude is outside [-180, 180]; boundaries are
inclusive (latitude 91 fails; 90, -90, 180, -180 succeed), and the failure
is an immediately raised ValueError. -/
theorem c7_location_bounds (lat lon : ℚ) :
    ((∃ l, mkLocation lat lon = .ok l) ↔
      ((-90 ≤ lat ∧ lat ≤ 90) ∧ (-180 ≤ lon ∧ lon ≤ 180))) ∧
    (∀ e, mkLocation lat lon = .error e → e.pyClass = .valueError) ∧
    (∃ e, mkLocation 91 0 = .error e) ∧
    (∃ l, mkLocation 90 180 = .ok l) ∧
    (∃ l, mkLocation (-90) (-180) = .ok l) := by
  refine ⟨?_, ?_, ⟨.invalidLatitude 91, by rfl⟩, ⟨⟨90, 180⟩, by rfl⟩,
    ⟨⟨-90, -180⟩, by rfl⟩⟩
  · by_cases h1 : (-90 ≤ lat ∧ lat ≤ 90)
    · by_cases h2 : (-180 ≤ lon ∧ lon ≤ 180)
      · have hok : mkLocation lat lon = .ok ⟨lat, lon⟩ := by
          unfold mkLocation
          rw [if_neg (not_not.mpr h1), if_neg (not_not.mpr h2)]
        simp [hok, h1, h2]
      · have herr : mkLocation lat lon = .error (.invalidLongitude lon) := by
          unfold mkLocation
          rw [if_neg (not_not.mpr h1), if_pos h2]
        simp [herr, h2]
    · have herr : mkLocation lat lon = .error (.invalidLatitude lat) := by
        unfold mkLocation
        rw [if_pos h1]
      simp [herr, h1]
  · intro e _
    cases e <;> rfl

/-! ### Claims about the service error paths and tool handlers -/

/-- Claim C8, counterexample: on the forecast fetch path an upstream HTTP
404 is swallowed by the single `except Exception` clause (weather_service.py
lines 149-151) and surfaces as the generic RuntimeError("Unable to get
forecast for ..."), not as a distinguishable location-not-found kind. -/
theorem c8_forecast_404_counterexample :
    get_forecast_svc dedupFirst "Atlantis" (.httpFailure 404) =
      .error (.unableForecast "Atlantis") ∧
    SvcError.unableForecast "Atlantis" ≠ SvcError.locationNotFound "Atlantis" :=
  ⟨rfl, by simp⟩

/-- Claim C8, amended: on the current-weather path an upstream HTTP 404
raises ValueError("Location ... not found"), distinguishable — by
constructor and by exception class — from the RuntimeError("Weather service
unavailable: ...") raised for every other HTTP failure status; on the
forecast path, however, every failure, HTTP 404 included, surfaces as the
generic RuntimeError("Unable to get forecast for ..."). -/
theorem c8_amended_error_kinds (σ : List String → List String) (loc : String)
    (s : Nat) (h : s ≠ 404) :
    get_current_weather_svc loc (.httpFailure 404) =
      .error (.locationNotFound loc) ∧
    get_current_weather_svc loc (.httpFailure s) =
      .error (.serviceUnavailable s) ∧
    SvcError.locationNotFound loc ≠ SvcError.serviceUnavailable s ∧
    (SvcError.locationNotFound loc).pyClass ≠ (SvcError.serviceUnavailable s).pyClass ∧
    get_forecast_svc σ loc (.httpFailure 404) = .error (.unableForecast loc) ∧
    SvcError.unableForecast loc ≠ SvcError.locationNotFound loc := by
  refine ⟨rfl, ?_, by simp, by simp [SvcError.pyClass], rfl, by simp⟩
  show (if s = 404 then Except.error (SvcError.locationNotFound loc)
    else Except.error (SvcError.serviceUnavailable s)) = _
  rw [if_neg h]

theorem c8_amended_error_kinds_witness :
    (500 : Nat) ≠ 404 ∧
    (get_current_weather_svc "Atlantis" (.httpFailure 404) =
       .error (.locationNotFound "Atlantis") ∧
     get_current_weather_svc "Atlantis" (.httpFailure 500) =
       .error (.serviceUnavailable 500) ∧
     SvcError.locationNotFound "Atlantis" ≠ SvcError.serviceUnavailable 500 ∧
     (SvcError.locationNotFound "Atlantis").pyClass ≠
       (SvcError.serviceUnavailable 500).pyClass ∧
     get_forecast_svc dedupFirst "Atlantis" (.httpFailure 404) =
       .error (.unableForecast "Atlantis") ∧
     SvcError.unableForecast "Atlantis" ≠ SvcError.locationNotFound "Atlantis") :=
  ⟨by decide, c8_amended_error_kinds dedupFirst "Atlantis" 500 (by decide)⟩

/-- Claim C9: each of the three tool handlers in main.py catches every
service error and returns the formatted failure text embedding `str(e)` —
in this embedding the handlers are total String-valued functions, so no
exception crosses the tool boundary. -/
theorem c9_tool_error_messages (loc : String) (e : SvcError) (w : CurrentData)
    (narrative : String) :
    get_current_weather_tool loc (.error e) =
      "Unable to get weather for " ++ loc ++ ": " ++ e.pyStr ∧
    get_weather_forecast_tool loc (.error e) =
      "Unable to get forecast for " ++ loc ++ ": " ++ e.pyStr ∧
    (∀ f : Except SvcError (List DailyForecast),
      get_weather_insights_tool loc (.error e) f narrative =
        "Unable to generate insights for " ++ loc ++ ": " ++ e.pyStr) ∧
    get_weather_insights_tool loc (.ok w) (.error e) narrative =
      "Unable to generate insights for " ++ loc ++ ": " ++ e.pyStr :=
  ⟨rfl, rfl, fun _ => rfl, rfl⟩

/-! ### Claim about the forecast-path aggregation's humidity and wind fields -/

theorem headD_append_cons {α : Type} (l : List α) (c : α) (t : List α) :
    ∀ dfl : α, (l ++ c :: t).headD dfl = l.headD c := by
  cases l <;> intro dfl <;> rfl

/-- Two item lists whose dates agree pointwise and whose per-date groups
agree on temperatures, descriptions, and first-entry humidity/wind aggregate
identically. -/
theorem aggregateForecast_congr (σ : List String → List String)
    {items₁ items₂ : List ForecastItem}
    (hdates : items₁.map ForecastItem.dt_txt_date = items₂.map ForecastItem.dt_txt_date)
    (hfilters : ∀ dd : String,
      ((items₁.filter (fun it => it.dt_txt_date = dd)).map ForecastItem.temp_max =
        (items₂.filter (fun it => it.dt_txt_date = dd)).map ForecastItem.temp_max) ∧
      ((items₁.filter (fun it => it.dt_txt_date = dd)).map ForecastItem.temp_min =
        (items₂.filter (fun it => it.dt_txt_date = dd)).map ForecastItem.temp_min) ∧
      ((items₁.filter (fun it => it.dt_txt_date = dd)).map ForecastItem.description =
        (items₂.filter (fun it => it.dt_txt_date = dd)).map ForecastItem.description) ∧
      ((items₁.filter (fun it => it.dt_txt_date = dd)).headD fDefault).humidity =
        ((items₂.filter (fun it => it.dt_txt_date = dd)).headD fDefault).humidity ∧
      ((items₁.filter (fun it => it.dt_txt_date = dd)).headD fDefault).wind_speed =
        ((items₂.filter (fun it => it.dt_txt_date = dd)).headD fDefault).wind_speed) :
    aggregateForecast σ items₁ = aggregateForecast σ items₂ := by
  unfold aggregateForecast
  rw [hdates]
  refine List.map_congr_left ?_
  intro dd _
  obtain ⟨h1, h2, h3, h4, h5⟩ := hfilters dd
  simp only [h1, h2, h3, h4, h5]

/-- Claim C10: in the forecast-path aggregation, each output day's humidity
and wind_speed come from the first input item of that calendar date (the
code's `entries[0]`), not from any aggregate over the day's items; hence
replacing the humidity and wind speed of an item that is not the first of
its date (here `b`, preceded by the same-date item `a`) leaves the entire
aggregation output unchanged. -/
theorem c10_first_sample_humidity_wind (σ : List String → List String)
    (items pre mid post : List ForecastItem) (a b b' : ForecastItem)
    (d : DailyForecast) (hd : d ∈ aggregateForecast σ items)
    (hdate : b.dt_txt_date = a.dt_txt_date)
    (hdate' : b'.dt_txt_date = b.dt_txt_date)
    (hmax : b'.temp_max = b.temp_max) (hmin : b'.temp_min = b.temp_min)
    (hdesc : b'.description = b.description) :
    (items.filter (fun it => it.dt_txt_date = d.date) ≠ [] ∧
     d.humidity =
       ((items.filter (fun it => it.dt_txt_date = d.date)).headD fDefault).humidity ∧
     d.wind_speed =
       pyRound ((items.filter (fun it => it.dt_txt_date = d.date)).headD fDefault).wind_speed) ∧
    aggregateForecast σ (pre ++ a :: (mid ++ b' :: post)) =
      aggregateForecast σ (pre ++ a :: (mid ++ b :: post)) := by
  constructor
  · unfold aggregateForecast at hd
    obtain ⟨dd, hdd, hfd⟩ := List.mem_map.mp hd
    have hddmem : dd ∈ items.map ForecastItem.dt_txt_date := by
      have := List.Sublist.subset (List.take_sublist _ _) hdd
      rwa [mem_sortedDedup] at this
    obtain ⟨it, hit, hitd⟩ := List.mem_map.mp hddmem
    have hdddate : d.date = dd := by rw [← hfd]
    have hmemfil : it ∈ items.filter (fun x => x.dt_txt_date = d.date) := by
      rw [List.mem_filter]
      exact ⟨hit, by rw [hdddate]; simp [hitd]⟩
    refine ⟨List.ne_nil_of_mem hmemfil, ?_, ?_⟩
    · rw [← hfd]
    · rw [← hfd]
  · refine aggregateForecast_congr σ ?_ ?_
    · simp [hdate']
    · intro dd
      by_cases hb : b.dt_txt_date = dd
      · have hb' : b'.dt_txt_date = dd := by rw [hdate']; exact hb
        have ha : a.dt_txt_date = dd := by rw [← hdate]; exact hb
        simp only [List.filter_append, List.filter_cons, ha, hb, hb',
          decide_true_eq_true, if_true, decide_True]
        simp [hmax, hmin, hdesc, headD_append_cons]
      · have hb' : ¬ b'.dt_txt_date = dd := by rw [hdate']; exact hb
        simp only [List.filter_append, List.filter_cons]
        simp [hb, hb']

def c10items : List ForecastItem :=
  [⟨"2024-01-01", 20, 10, "rain", 80, 5⟩, ⟨"2024-01-01", 22, 12, "clear", 60, 7⟩]

def c10a : ForecastItem := ⟨"2024-01-01", 20, 10, "rain", 80, 5⟩

def c10b : ForecastItem := ⟨"2024-01-01", 22, 12, "clear", 60, 7⟩

def c10b' : ForecastItem := ⟨"2024-01-01", 22, 12, "clear", 99, 1⟩

def c10day : DailyForecast := ⟨"2024-01-01", 22, 10, "rain, clear", 80, 5⟩

theorem c10_first_sample_humidity_wind_witness :
    c10day ∈ aggregateForecast dedupFirst c10items ∧
    c10b.dt_txt_date = c10a.dt_txt_date ∧
    c10b'.dt_txt_date = c10b.dt_txt_date ∧
    c10b'.temp_max = c10b.temp_max ∧
    c10b'.temp_min = c10b.temp_min ∧
    c10b'.description = c10b.description ∧
    ((c10items.filter (fun it => it.dt_txt_date = c10day.date) ≠ [] ∧
      c10day.humidity =
        ((c10items.filter (fun it => it.dt_txt_date = c10day.date)).headD fDefault).humidity ∧
      c10day.wind_speed =
        pyRound ((c10items.filter (fun it => it.dt_txt_date = c10day.date)).headD
          fDefault).wind_speed) ∧
     aggregateForecast dedupFirst ([] ++ c10a :: ([] ++ c10b' :: [])) =
       aggregateForecast dedupFirst ([] ++ c10a :: ([] ++ c10b :: []))) :=
  ⟨by decide, by rfl, by rfl, by rfl, by rfl, by rfl,
    c10_first_sample_humidity_wind dedupFirst c10items [] [] [] c10a c10b c10b'
      c10day (by decide) (by rfl) (by rfl) (by rfl) (by rfl) (by rfl)⟩

end Weather
